import Mathlib

/-!
Verification of the `rust-utils` translation module (`src/translate/translator.rs`).

The Rust module loads per-language Fluent translation bundles from a directory
tree and resolves (language, message key) pairs to formatted strings, falling
back to a default language and, ultimately, to a fixed literal string.

Shallow embedding conventions:
  * Rust panics (from `expect` / `unwrap`) are modelled by the `RunOutcome.aborted`
    constructor; normal returns by `RunOutcome.ok`.
  * `Result<A, E>` is `Except E A`; `Option<A>` is `Option A`.
  * `HashMap<String, Bundle>` is an association list `List (String × Bundle)`
    with overwrite-on-insert semantics (`insertS` / `getS` / `containsS`).
  * The external collaborators (the `fluent_bundle` engine, `unic_langid`
    parsing, the filesystem) are out of scope of the repository; they are
    modelled from the spec, as indicated by doc comments.
  * The Rust code is generic over `Key: LanguageKey`, whose only capability is
    `as_str(&self) -> &'static str`; keys are therefore embedded as the
    `String` their `as_str` produces.
-/

set_option autoImplicit false

/-- Outcome of running Rust code that may abort the process:
`aborted msg` models a Rust panic (raised by `expect`/`unwrap`),
`ok a` models a normal return of value `a`. -/
inductive RunOutcome (α : Type) where
  | aborted (msg : String)
  | ok (a : α)
deriving DecidableEq

/-- Embedding of the Rust struct `TranslatorError { description, name }`. -/
structure TranslatorError where
  description : String
  name : String
deriving DecidableEq

/-- Association-list lookup, modelling `HashMap::get` on string keys. -/
def getS {α : Type} : List (String × α) → String → Option α
  | [], _ => none
  | (k, v) :: rest, key => if k == key then some v else getS rest key

/-- Association-list insertion with overwrite, modelling `HashMap::insert`. -/
def insertS {α : Type} : List (String × α) → String → α → List (String × α)
  | [], key, value => [(key, value)]
  | (k, v) :: rest, key, value =>
    if k == key then (key, value) :: rest else (k, v) :: insertS rest key value

/-- Modelling `HashMap::contains_key`. -/
def containsS {α : Type} (l : List (String × α)) (key : String) : Bool :=
  (getS l key).isSome

/-- Modelled from the spec: a value attachable as a formatting argument
("strings, numbers, etc." convertible into the external engine's
representation, Rust's `FluentValue`). -/
inductive FluentValue where
  | str (s : String)
  | num (n : Int)
deriving DecidableEq

/-- Modelled from the spec: rendering of one argument value as text by the
external formatting engine. -/
def FluentValue.render : FluentValue → String
  | .str s => s
  | .num n => toString n

/-- Modelled from the spec: one element of a message pattern — either literal
text or a placeable referencing a named argument. -/
inductive PatternPart where
  | text (s : String)
  | varRef (v : String)
deriving DecidableEq

/-- Modelled from the spec: a message pattern, "the parsed, not-yet-rendered
representation of one localized string, potentially containing argument
placeholders". -/
abbrev Pattern := List PatternPart

/-- Modelled from the spec: a compiled message of the external engine (Rust's
`FluentMessage`). A Fluent message may carry attributes but no value pattern,
in which case `value` is `none` (as `FluentMessage::value` returns `Option`). -/
structure FluentMessage where
  name : String
  value : Option Pattern
deriving DecidableEq

/-- Modelled from the spec: a parsed translation resource of the external
engine (Rust's `FluentResource`): a set of messages parsed from one file. -/
structure FluentResource where
  messages : List FluentMessage
deriving DecidableEq

/-- Modelled from the spec: the outcome the external parser produces for one
file's text. The parser itself is an out-of-scope external collaborator, so a
file's textual content is represented directly by the parse outcome it
determines (`.error` for a "corrupt entry", `.ok` for a parsed resource). -/
abbrev ParseOutcome := Except String FluentResource

/-- Embedding of `FluentResource::try_new` on the `ParseOutcome` representation
of file content: the external parser's verdict is the content itself. -/
def FluentResource.try_new (content : ParseOutcome) : Except String FluentResource :=
  content

/-- Modelled from the spec: accumulated named formatting arguments (Rust's
`FluentArgs`). -/
abbrev FluentArgs := List (String × FluentValue)

/-- Modelled from the spec: `FluentArgs::set` overwrites the value for an
existing name, otherwise appends the pair. -/
def FluentArgs.set : FluentArgs → String → FluentValue → FluentArgs
  | [], key, value => [(key, value)]
  | (k, v) :: rest, key, value =>
    if k == key then (key, value) :: rest else (k, v) :: FluentArgs.set rest key value

/-- Modelled from the spec: lookup of a named argument. -/
def FluentArgs.get : FluentArgs → String → Option FluentValue
  | [], _ => none
  | (k, v) :: rest, key => if k == key then some v else FluentArgs.get rest key

/-- Modelled from the spec: a per-language compiled message bundle of the
external engine (the Rust type alias
`Bundle = FluentBundle<FluentResource, IntlLangMemoizer>`). -/
structure Bundle where
  locales : List String
  messages : List FluentMessage
deriving DecidableEq

/-- Embedding of `Bundle::new_concurrent(langs)`: an empty bundle for the given
locales. -/
def Bundle.new_concurrent (langs : List String) : Bundle :=
  ⟨langs, []⟩

/-- Modelled from the spec: `FluentBundle::get_message` — lookup of a compiled
message by its static name. -/
def Bundle.get_message (b : Bundle) (id : String) : Option FluentMessage :=
  b.messages.find? (fun m => m.name == id)

/-- Modelled from the spec: `FluentBundle::add_resource` — merging a parsed
resource into the bundle; "a merge failure (e.g., duplicate message
identifiers across files within the same language)" is an error. -/
def Bundle.add_resource (b : Bundle) (r : FluentResource) : Except Unit Bundle :=
  if r.messages.any (fun m => (b.get_message m.name).isSome) then
    .error ()
  else
    .ok ⟨b.locales, b.messages ++ r.messages⟩

/-- Modelled from the spec: `FluentBundle::format_pattern` — renders a pattern
with the given optional arguments, returning the rendered text together with
the list of formatting errors encountered (the Rust function pushes them into
a caller-supplied `errors` vector). A placeable whose argument is absent
renders as its source text and records an error. -/
def Bundle.format_pattern (_b : Bundle) (p : Pattern) (args : Option FluentArgs) :
    String × List String :=
  p.foldl
    (fun acc part =>
      match part with
      | .text s => (acc.1 ++ s, acc.2)
      | .varRef v =>
        match args.bind (fun a => FluentArgs.get a v) with
        | some value => (acc.1 ++ value.render, acc.2)
        | none => (acc.1 ++ "\x7b$" ++ v ++ "\x7d", acc.2 ++ ["Unknown variable: $" ++ v]))
    ("", [])

/-- Modelled from the spec: `str::parse::<LanguageIdentifier>` of the external
`unic_langid` crate — "a validated locale tag (e.g. en-US)"; BCP-47-like
directory names parse, anything else does not. -/
def parseLanguageIdentifier (s : String) : Option String :=
  if !s.data.isEmpty && s.data.all (fun c => c.isAlpha || c == '-') then some s else none

/-- Model of one filesystem directory entry (Rust's `std::fs::DirEntry`
together with the I/O the loader performs on it): its file name, the outcome
of `file_type()`, the outcome of `fs::read_to_string(path)` (represented by
the parse outcome the text determines, see `ParseOutcome`), and the outcome of
`fs::read_dir(path)`. -/
inductive DirEntry where
  | mk (name : String) (fileType : Except String Bool)
       (content : Except String ParseOutcome)
       (listing : Except String (List (Except String DirEntry)))

/-- The entry's file name (`DirEntry::file_name`). -/
def DirEntry.name : DirEntry → String
  | .mk n _ _ _ => n

/-- The outcome of `DirEntry::file_type()`, with `true` for `is_dir()`. -/
def DirEntry.fileType : DirEntry → Except String Bool
  | .mk _ ft _ _ => ft

/-- The outcome of `fs::read_to_string` on the entry's path. -/
def DirEntry.content : DirEntry → Except String ParseOutcome
  | .mk _ _ c _ => c

/-- The outcome of `fs::read_dir` on the entry's path. -/
def DirEntry.listing : DirEntry → Except String (List (Except String DirEntry))
  | .mk _ _ _ l => l

/-- The fixed literal fallback string `TRANSLATION_FAILED` of the Rust module
(note the source's spelling "ocurred"). -/
def TRANSLATION_FAILED : String :=
  "An error has ocurred while trying to translate the message"

/-- Embedding of the Rust struct `Translator`. -/
structure Translator where
  translations : List (String × Bundle)
  default_language : String
deriving DecidableEq

/-- Embedding of the Rust struct `MessageTranslator` (the builder): requested
key, resolved bundle, optionally resolved message, accumulated arguments. -/
structure MessageTranslator where
  key : String
  bundle : Bundle
  message : Option FluentMessage
  args : Option FluentArgs
deriving DecidableEq

/-- Embedding of `Translator::get_directory_data`. An `Err` directory entry is
`expect`ed (panic); a failing `file_type()` yields the `READ_FILE_ERROR`
structured error; a non-directory entry is skipped (`Ok(None)`). -/
def Translator.get_directory_data (directory_result : Except String DirEntry) :
    RunOutcome (Except TranslatorError (Option (DirEntry × String))) :=
  match directory_result with
  | .error _ => .aborted "Could not get directory data"
  | .ok directory =>
    match directory.fileType with
    | .error _ =>
      .ok (.error ⟨"Could not get file type from " ++ directory.name, "READ_FILE_ERROR"⟩)
    | .ok isDir =>
      if isDir then .ok (.ok (some (directory, directory.name))) else .ok (.ok none)

/-- Embedding of `Translator::get_file_data`. An `Err` file entry is
`expect`ed (panic); a failing `read_to_string` skips the file (`None`). -/
def Translator.get_file_data (file_result : Except String DirEntry) :
    RunOutcome (Option (ParseOutcome × String)) :=
  match file_result with
  | .error _ => .aborted "Failed to get file metadata"
  | .ok file =>
    match file.content with
    | .ok content => .ok (some (content, file.name))
    | .error _ => .ok none

/-- Embedding of the inner file loop of `Translator::new`: reads each file of
one language directory, parses it, and merges parsed resources into the
bundle; a parse failure is logged and skipped, a merge failure is the fatal
`BUNDLE_ERROR`. -/
def loadFiles : List (Except String DirEntry) → Bundle →
    RunOutcome (Except TranslatorError Bundle)
  | [], bundle => .ok (.ok bundle)
  | file_result :: rest, bundle =>
    match Translator.get_file_data file_result with
    | .aborted msg => .aborted msg
    | .ok none => loadFiles rest bundle
    | .ok (some (content, file_name)) =>
      match FluentResource.try_new content with
      | .ok resource =>
        match bundle.add_resource resource with
        | .error _ =>
          .ok (.error ⟨"Could not add data from file " ++ file_name ++ " to bundle",
            "BUNDLE_ERROR"⟩)
        | .ok bundle => loadFiles rest bundle
      | .error _ => loadFiles rest bundle

/-- Embedding of the outer directory loop of `Translator::new`:
`language_directory` is the root path string (the subdirectory
`READ_DIR_ERROR` description interpolates this root path, faithfully to the
source, whose closure captures the outer `language_directory` parameter). -/
def loadLanguages (language_directory : String) :
    List (Except String DirEntry) → List (String × Bundle) →
    RunOutcome (Except TranslatorError (List (String × Bundle)))
  | [], translations => .ok (.ok translations)
  | result :: rest, translations =>
    match Translator.get_directory_data result with
    | .aborted msg => .aborted msg
    | .ok (.error e) => .ok (.error e)
    | .ok (.ok none) => loadLanguages language_directory rest translations
    | .ok (.ok (some (directory, directory_name))) =>
      match parseLanguageIdentifier directory_name with
      | some language_identifier =>
        match directory.listing with
        | .error _ =>
          .ok (.error ⟨"An error has ocured while trying to read " ++ language_directory,
            "READ_DIR_ERROR"⟩)
        | .ok files =>
          match loadFiles files (Bundle.new_concurrent [language_identifier]) with
          | .aborted msg => .aborted msg
          | .ok (.error e) => .ok (.error e)
          | .ok (.ok bundle) =>
            loadLanguages language_directory rest (insertS translations directory_name bundle)
      | none => loadLanguages language_directory rest translations

/-- Embedding of `Translator::new`: `root` is the outcome of
`fs::read_dir(language_directory)`; after the directory loop, the default
language must be a key of the loaded mapping. -/
def Translator.new (language_directory : String)
    (root : Except String (List (Except String DirEntry)))
    (default_language : String) : RunOutcome (Except TranslatorError Translator) :=
  match root with
  | .error _ =>
    .ok (.error ⟨"An error has ocurred while reading translations directory",
      "READ_DIR_ERROR"⟩)
  | .ok entries =>
    match loadLanguages language_directory entries [] with
    | .aborted msg => .aborted msg
    | .ok (.error e) => .ok (.error e)
    | .ok (.ok translations) =>
      if containsS translations default_language then
        .ok (.ok ⟨translations, default_language⟩)
      else
        .ok (.error ⟨default_language ++
          " was designated as default language, but no translations where provided for this language",
          "DEFAULT_LANGUAGE_ERROR"⟩)

/-- Embedding of `Translator::get_message`: selects the requested language's
bundle (falling back to the default language's bundle when the language is
unknown, rebinding `language` to the default), looks the key up in the
selected bundle, and retries in the default bundle when the message is absent
and the selected language differs from the default. The two
`self.translations.get(&self.default_language).unwrap()` calls panic
(`aborted`) when the default language is absent from the mapping. -/
def Translator.get_message (t : Translator) (language : String) (key : String) :
    RunOutcome (Option FluentMessage × Bundle) :=
  match getS t.translations language with
  | some translations =>
    if (translations.get_message key).isNone && language != t.default_language then
      match getS t.translations t.default_language with
      | some default_bundle => .ok (default_bundle.get_message key, translations)
      | none => .aborted "called Option::unwrap on a None value"
    else
      .ok (translations.get_message key, translations)
  | none =>
    match getS t.translations t.default_language with
    | some translations => .ok (translations.get_message key, translations)
    | none => .aborted "called Option::unwrap on a None value"

/-- Embedding of `Translator::translate`: resolves the message and seeds a
builder with no arguments (`args: Default::default()`). -/
def Translator.translate (t : Translator) (language : String) (key : String) :
    RunOutcome MessageTranslator :=
  match t.get_message language key with
  | .aborted msg => .aborted msg
  | .ok (message, bundle) => .ok ⟨key, bundle, message, none⟩

/-- Embedding of `Translator::translate_without_args`: resolves the message;
if found, formats `message.value().unwrap()` (a panic when the message has no
value pattern) with no arguments, returning the rendered text when no
formatting errors occurred and `TRANSLATION_FAILED` otherwise; when no message
was found, returns `TRANSLATION_FAILED`. -/
def Translator.translate_without_args (t : Translator) (language : String) (key : String) :
    RunOutcome String :=
  match t.get_message language key with
  | .aborted msg => .aborted msg
  | .ok (some message, bundle) =>
    match message.value with
    | none => .aborted "called Option::unwrap on a None value"
    | some pattern =>
      let result := bundle.format_pattern pattern none
      if result.2.isEmpty then .ok result.1 else .ok TRANSLATION_FAILED
  | .ok (none, _) => .ok TRANSLATION_FAILED

/-- Embedding of `MessageTranslator::add_argument`: sets (overwriting) the
named argument, creating the argument map on first use. -/
def MessageTranslator.add_argument (t : MessageTranslator) (key : String)
    (value : FluentValue) : MessageTranslator :=
  let args := match t.args with
    | none => ([] : FluentArgs)
    | some args => args
  { t with args := some (FluentArgs.set args key value) }

/-- Embedding of `MessageTranslator::build`: when no message was resolved,
returns `TRANSLATION_FAILED`; otherwise formats `message.value().unwrap()` (a
panic when the message has no value pattern) with the accumulated arguments,
returning the rendered text when no formatting errors occurred and
`TRANSLATION_FAILED` otherwise. -/
def MessageTranslator.build (t : MessageTranslator) : RunOutcome String :=
  match t.message with
  | none => .ok TRANSLATION_FAILED
  | some message =>
    match message.value with
    | none => .aborted "called Option::unwrap on a None value"
    | some pattern =>
      let result := t.bundle.format_pattern pattern t.args
      if result.2.isEmpty then .ok result.1 else .ok TRANSLATION_FAILED

/-! ## Helper lemmas -/

lemma getS_mem {α : Type} {l : List (String × α)} {k : String} {v : α}
    (h : getS l k = some v) : (k, v) ∈ l := by
  induction l with
  | nil => simp [getS] at h
  | cons p rest ih =>
    obtain ⟨k', v'⟩ := p
    by_cases hk : k' == k
    · simp [getS, hk] at h
      have : k' = k := by simpa using hk
      subst this
      subst h
      exact List.mem_cons_self _ _
    · simp [getS, hk] at h
      exact List.mem_cons_of_mem _ (ih h)

lemma containsS_getS {α : Type} {l : List (String × α)} {k : String}
    (h : containsS l k = true) : ∃ v, getS l k = some v := by
  simpa [containsS, Option.isSome_iff_exists] using h

/-! ## Claim C10 -/

/-- Claim C10: during construction, a directory entry whose `Result` is `Err`
makes `get_directory_data` and `get_file_data` panic via `expect` (modelled by
`aborted`), while a failing `file_type()` check yields the structured
`READ_FILE_ERROR` and a failing content read yields a non-fatal skip. -/
theorem claim10_direntry_error_panics :
    (∀ msg : String,
      Translator.get_directory_data (.error msg) = .aborted "Could not get directory data") ∧
    (∀ msg : String,
      Translator.get_file_data (.error msg) = .aborted "Failed to get file metadata") ∧
    (∀ (name ftmsg : String) (c : Except String ParseOutcome)
       (lst : Except String (List (Except String DirEntry))),
      Translator.get_directory_data (.ok (.mk name (.error ftmsg) c lst)) =
        .ok (.error ⟨"Could not get file type from " ++ name, "READ_FILE_ERROR"⟩)) ∧
    (∀ (name rmsg : String) (ft : Except String Bool)
       (lst : Except String (List (Except String DirEntry))),
      Translator.get_file_data (.ok (.mk name ft (.error rmsg) lst)) = .ok none) :=
  ⟨fun _ => rfl, fun _ => rfl, fun _ _ _ _ => rfl, fun _ _ _ _ => rfl⟩

theorem claim10_witness :
    Translator.get_directory_data (.error "io failure") =
      .aborted "Could not get directory data" ∧
    Translator.get_file_data (.error "io failure") =
      .aborted "Failed to get file metadata" ∧
    Translator.get_directory_data (.ok (.mk "en-US" (.error "denied") (.error "") (.error ""))) =
      .ok (.error ⟨"Could not get file type from " ++ "en-US", "READ_FILE_ERROR"⟩) ∧
    Translator.get_file_data (.ok (.mk "app.ftl" (.ok false) (.error "denied") (.error ""))) =
      .ok none :=
  ⟨claim10_direntry_error_panics.1 "io failure",
   claim10_direntry_error_panics.2.1 "io failure",
   claim10_direntry_error_panics.2.2.1 "en-US" "denied" (.error "") (.error ""),
   claim10_direntry_error_panics.2.2.2 "app.ftl" "denied" (.ok false) (.error "")⟩

/-! ## Claim C2 -/

/-- Claim C2: whenever the directory loop of `Translator::new` completes with
a loaded mapping that does not contain the declared default language,
construction returns the `DEFAULT_LANGUAGE_ERROR` structured error (the spec's
`DefaultLanguageMissingError`) instead of a registry, regardless of which
other languages loaded successfully. -/
theorem claim2_default_language_missing (path : String)
    (entries : List (Except String DirEntry)) (default_language : String)
    (translations : List (String × Bundle))
    (hload : loadLanguages path entries [] = .ok (.ok translations))
    (hmiss : containsS translations default_language = false) :
    Translator.new path (.ok entries) default_language =
      .ok (.error ⟨default_language ++
        " was designated as default language, but no translations where provided for this language",
        "DEFAULT_LANGUAGE_ERROR"⟩) := by
  simp [Translator.new, hload, hmiss]

def c2entries : List (Except String DirEntry) :=
  [.ok (.mk "en-US" (.ok true) (.error "") (.ok []))]

theorem claim2_witness :
    loadLanguages "translations" c2entries [] = .ok (.ok [("en-US", ⟨["en-US"], []⟩)]) ∧
    containsS [("en-US", (⟨["en-US"], []⟩ : Bundle))] "fr-FR" = false ∧
    Translator.new "translations" (.ok c2entries) "fr-FR" =
      .ok (.error ⟨"fr-FR" ++
        " was designated as default language, but no translations where provided for this language",
        "DEFAULT_LANGUAGE_ERROR"⟩) :=
  ⟨rfl, rfl, claim2_default_language_missing "translations" c2entries "fr-FR"
    [("en-US", ⟨["en-US"], []⟩)] rfl rfl⟩

/-! ## Claim C8 -/

/-- Claim C8: a root entry that is a directory with a valid language name but
whose contents cannot be listed makes construction fail with the structured
`READ_DIR_ERROR` (the spec's `DirectoryReadError`), while a root directory
whose name does not parse as a language identifier is skipped and leaves the
outcome of construction unchanged. -/
theorem claim8_directory_errors :
    (∀ (path name lmsg lid default_language : String) (c : Except String ParseOutcome)
       (rest : List (Except String DirEntry)),
      parseLanguageIdentifier name = some lid →
      Translator.new path (.ok (.ok (.mk name (.ok true) c (.error lmsg)) :: rest))
          default_language =
        .ok (.error ⟨"An error has ocured while trying to read " ++ path,
          "READ_DIR_ERROR"⟩)) ∧
    (∀ (path name default_language : String) (c : Except String ParseOutcome)
       (lst : Except String (List (Except String DirEntry)))
       (rest : List (Except String DirEntry)),
      parseLanguageIdentifier name = none →
      Translator.new path (.ok (.ok (.mk name (.ok true) c lst) :: rest)) default_language =
        Translator.new path (.ok rest) default_language) := by
  constructor
  · intro path name lmsg lid default_language c rest hparse
    have h1 : loadLanguages path (.ok (.mk name (.ok true) c (.error lmsg)) :: rest) [] =
        .ok (.error ⟨"An error has ocured while trying to read " ++ path, "READ_DIR_ERROR"⟩) := by
      simp [loadLanguages, Translator.get_directory_data, DirEntry.fileType, DirEntry.name,
        DirEntry.listing, hparse]
    simp [Translator.new, h1]
  · intro path name default_language c lst rest hparse
    have h1 : loadLanguages path (.ok (.mk name (.ok true) c lst) :: rest) [] =
        loadLanguages path rest [] := by
      simp [loadLanguages, Translator.get_directory_data, DirEntry.fileType, DirEntry.name,
        hparse]
    simp only [Translator.new]
    rw [h1]

theorem claim8_witness :
    parseLanguageIdentifier "en-US" = some "en-US" ∧
    Translator.new "translations"
        (.ok [.ok (.mk "en-US" (.ok true) (.error "") (.error "denied"))]) "en-US" =
      .ok (.error ⟨"An error has ocured while trying to read " ++ "translations",
        "READ_DIR_ERROR"⟩) ∧
    parseLanguageIdentifier "readme.txt" = none ∧
    Translator.new "translations"
        (.ok [.ok (.mk "readme.txt" (.ok true) (.error "") (.ok []))]) "en-US" =
      Translator.new "translations" (.ok []) "en-US" :=
  ⟨rfl,
   claim8_directory_errors.1 "translations" "en-US" "" "en-US" "en-US" (.error "") [] rfl,
   rfl,
   claim8_directory_errors.2 "translations" "readme.txt" "en-US" (.error "") (.ok []) [] rfl⟩

/-! ## Claim C1 -/

def c1file : DirEntry :=
  .mk "main.ftl" (.ok false) (.ok (.ok ⟨[⟨"welcome", none⟩]⟩)) (.error "not a directory")

def c1dir : DirEntry :=
  .mk "en-US" (.ok true) (.error "is a directory") (.ok [.ok c1file])

def c1bundle : Bundle := ⟨["en-US"], [⟨"welcome", none⟩]⟩

def c1translator : Translator := ⟨[("en-US", c1bundle)], "en-US"⟩

/-- Claim C1 (refuted — code bug): the render paths are *not* panic-free for
every successfully constructed registry. A valid Fluent resource may define a
message carrying attributes but no value pattern; `Translator::new` loads it
successfully, yet both `translate_without_args` and `MessageTranslator::build`
then panic at `message.value().unwrap()` instead of producing a displayable
string. This theorem evaluates the code at such a registry: construction
succeeds, and both render paths abort. -/
theorem claim1_valueless_message_panics :
    Translator.new "translations" (.ok [.ok c1dir]) "en-US" = .ok (.ok c1translator) ∧
    c1translator.translate_without_args "en-US" "welcome" =
      .aborted "called Option::unwrap on a None value" ∧
    c1translator.translate "en-US" "welcome" =
      .ok ⟨"welcome", c1bundle, some ⟨"welcome", none⟩, none⟩ ∧
    MessageTranslator.build ⟨"welcome", c1bundle, some ⟨"welcome", none⟩, none⟩ =
      .aborted "called Option::unwrap on a None value" :=
  ⟨rfl, rfl, rfl, rfl⟩

/-! ## Claim C3 -/

lemma any_const_false {α : Type} (l : List α) : (l.any fun _ => false) = false := by
  induction l <;> simp [*]

def c3dir : DirEntry :=
  .mk "en-US" (.ok true) (.error "is a directory")
    (.ok [.ok (.mk "main.ftl" (.ok false)
      (.ok (.ok ⟨[⟨"hello", some [.text "Hello world"]⟩]⟩)) (.error "not a directory"))])

def c3translator : Translator :=
  ⟨[("en-US", ⟨["en-US"], [⟨"hello", some [.text "Hello world"]⟩]⟩)], "en-US"⟩

/-- Claim C3 (counterexample): on a registry successfully constructed by
`Translator::new`, requesting a key present in no loaded bundle does *not*
return the string "An error has occurred while trying to translate the
message" claimed by the spec: the source's literal is spelled "ocurred". -/
theorem claim3_counterexample :
    Translator.new "translations" (.ok [.ok c3dir]) "en-US" = .ok (.ok c3translator) ∧
    c3translator.translate_without_args "en-US" "missing" = .ok TRANSLATION_FAILED ∧
    ¬ (c3translator.translate_without_args "en-US" "missing" =
        .ok "An error has occurred while trying to translate the message") := by
  refine ⟨rfl, rfl, ?_⟩
  decide

/-- Claim C3 (amended): for every language and every key that exists in no
loaded bundle of a registry whose default language is loaded, both the
no-argument render path and the builder render path return exactly the fixed
string `TRANSLATION_FAILED`, i.e. "An error has ocurred while trying to
translate the message" (spelled as in the source). -/
theorem claim3_total_miss_fallback_text (t : Translator) (language key : String)
    (hdefault : containsS t.translations t.default_language = true)
    (hmiss : ∀ p ∈ t.translations, Bundle.get_message p.2 key = none) :
    t.translate_without_args language key = .ok TRANSLATION_FAILED ∧
    ∃ mt, t.translate language key = .ok mt ∧ mt.build = .ok TRANSLATION_FAILED := by
  obtain ⟨db, hdb⟩ := containsS_getS hdefault
  have hdbnone : db.get_message key = none := hmiss (t.default_language, db) (getS_mem hdb)
  have hres : ∃ b, t.get_message language key = .ok (none, b) := by
    cases hl : getS t.translations language with
    | none => exact ⟨db, by simp [Translator.get_message, hl, hdb, hdbnone]⟩
    | some b =>
      have hbnone : b.get_message key = none := hmiss (language, b) (getS_mem hl)
      refine ⟨b, ?_⟩
      simp only [Translator.get_message, hl]
      split
      · rw [hdb]
        simp [hdbnone]
      · rw [hbnone]
  obtain ⟨b, hres⟩ := hres
  constructor
  · simp [Translator.translate_without_args, hres]
  · exact ⟨⟨key, b, none, none⟩, by simp [Translator.translate, hres], rfl⟩

theorem claim3_witness :
    containsS c3translator.translations c3translator.default_language = true ∧
    (∀ p ∈ c3translator.translations, Bundle.get_message p.2 "missing" = none) ∧
    c3translator.translate_without_args "fr-FR" "missing" = .ok TRANSLATION_FAILED ∧
    ∃ mt, c3translator.translate "fr-FR" "missing" = .ok mt ∧
      mt.build = .ok TRANSLATION_FAILED :=
  ⟨rfl, by decide,
   (claim3_total_miss_fallback_text c3translator "fr-FR" "missing" rfl (by decide)).1,
   (claim3_total_miss_fallback_text c3translator "fr-FR" "missing" rfl (by decide)).2⟩

/-! ## Claim C4 -/

/-- Claim C4: for every language known to the registry and every key, a
normally returned resolve result carries the bundle originally selected by
that language, even when the message itself was found by fallback in the
default language's bundle. -/
theorem claim4_bundle_is_originally_selected (t : Translator) (language key : String)
    (b : Bundle) (hknown : getS t.translations language = some b) :
    ∀ (m : Option FluentMessage) (b' : Bundle),
      t.get_message language key = .ok (m, b') → b' = b := by
  intro m b' h
  simp only [Translator.get_message, hknown] at h
  split at h
  · split at h
    · simp_all
    · simp_all
  · simp_all

def c4esBundle : Bundle := ⟨["es-ES"], [⟨"adios", some [.text "Adios"]⟩]⟩

def c4translator : Translator :=
  ⟨[("en-US", ⟨["en-US"], [⟨"hello", some [.text "Hello"]⟩]⟩), ("es-ES", c4esBundle)],
   "en-US"⟩

theorem claim4_witness :
    getS c4translator.translations "es-ES" = some c4esBundle ∧
    c4translator.get_message "es-ES" "hello" =
      .ok (some ⟨"hello", some [.text "Hello"]⟩, c4esBundle) ∧
    c4esBundle = c4esBundle :=
  ⟨rfl, rfl,
   claim4_bundle_is_originally_selected c4translator "es-ES" "hello" c4esBundle rfl
     (some ⟨"hello", some [.text "Hello"]⟩) c4esBundle rfl⟩

/-! ## Claim C5 -/

/-- Claim C5: resolving with a language identifier that is not a key of the
registry's mapping returns the same message/bundle pair (or the same panic)
as resolving with the default language. -/
theorem claim5_unknown_language_fallback (t : Translator) (language key : String)
    (hunknown : getS t.translations language = none) :
    t.get_message language key = t.get_message t.default_language key := by
  cases hd : getS t.translations t.default_language with
  | none => simp [Translator.get_message, hunknown, hd]
  | some db => simp [Translator.get_message, hunknown, hd]

def c5translator : Translator :=
  ⟨[("en-US", ⟨["en-US"], [⟨"hello", some [.text "Hello"]⟩]⟩)], "en-US"⟩

theorem claim5_witness :
    getS c5translator.translations "xx-XX" = none ∧
    c5translator.get_message "xx-XX" "hello" = c5translator.get_message "en-US" "hello" :=
  ⟨rfl, claim5_unknown_language_fallback c5translator "xx-XX" "hello" rfl⟩

/-! ## Claim C7 -/

/-- Claim C7: a language directory holding one malformed resource file (parse
failure) and one well-formed resource file loads successfully: construction
succeeds and the language's bundle contains exactly the well-formed file's
messages — the parse failure is skipped, never fatal. -/
theorem claim7_corrupt_file_isolation (path dname lid bn gn perr : String)
    (r : FluentResource) (ftb ftg : Except String Bool)
    (lb lg : Except String (List (Except String DirEntry)))
    (c : Except String ParseOutcome)
    (hparse : parseLanguageIdentifier dname = some lid) :
    Translator.new path
      (.ok [.ok (.mk dname (.ok true) c
        (.ok [.ok (.mk bn ftb (.ok (.error perr)) lb),
              .ok (.mk gn ftg (.ok (.ok r)) lg)]))]) dname =
      .ok (.ok ⟨[(dname, ⟨[lid], r.messages⟩)], dname⟩) := by
  have hfiles : loadFiles
      [.ok (.mk bn ftb (.ok (.error perr)) lb), .ok (.mk gn ftg (.ok (.ok r)) lg)]
      (Bundle.new_concurrent [lid]) = .ok (.ok ⟨[lid], r.messages⟩) := by
    simp [loadFiles, Translator.get_file_data, DirEntry.content, DirEntry.name,
      FluentResource.try_new, Bundle.add_resource, Bundle.new_concurrent,
      Bundle.get_message, any_const_false]
  have hload : loadLanguages path
      [.ok (.mk dname (.ok true) c
        (.ok [.ok (.mk bn ftb (.ok (.error perr)) lb),
              .ok (.mk gn ftg (.ok (.ok r)) lg)]))] [] =
      .ok (.ok [(dname, ⟨[lid], r.messages⟩)]) := by
    simp [loadLanguages, Translator.get_directory_data, DirEntry.fileType, DirEntry.name,
      DirEntry.listing, hparse, hfiles, insertS]
  simp [Translator.new, hload, containsS, getS]

theorem claim7_witness :
    parseLanguageIdentifier "en-US" = some "en-US" ∧
    Translator.new "translations"
      (.ok [.ok (.mk "en-US" (.ok true) (.error "")
        (.ok [.ok (.mk "bad.ftl" (.ok false) (.ok (.error "corrupt entry")) (.error "")),
              .ok (.mk "good.ftl" (.ok false)
                (.ok (.ok ⟨[⟨"hello", some [.text "Hello"]⟩]⟩)) (.error ""))]))])
      "en-US" =
      .ok (.ok ⟨[("en-US", ⟨["en-US"], [⟨"hello", some [.text "Hello"]⟩]⟩)], "en-US"⟩) :=
  ⟨rfl, claim7_corrupt_file_isolation "translations" "en-US" "en-US" "bad.ftl" "good.ftl"
    "corrupt entry" ⟨[⟨"hello", some [.text "Hello"]⟩]⟩ (.ok false) (.ok false)
    (.error "") (.error "") (.error "") rfl⟩

/-! ## Claim C9 -/

/-- Claim C9: every registry produced by a successful `Translator::new` has
its default-language identifier as a key of the translations mapping, and
consequently `get_message` never reaches the panicking `unwrap` on the
default-language lookups: it returns normally for all language/key
arguments. -/
theorem claim9_registry_invariant (path d : String)
    (root : Except String (List (Except String DirEntry))) (t : Translator)
    (hnew : Translator.new path root d = .ok (.ok t)) :
    containsS t.translations t.default_language = true ∧
    ∀ (language key : String), ∃ mb, t.get_message language key = .ok mb := by
  have hc : containsS t.translations t.default_language = true := by
    cases root with
    | error e => simp [Translator.new] at hnew
    | ok entries =>
      rcases hload : loadLanguages path entries [] with msg | r
      · simp [Translator.new, hload] at hnew
      · cases r with
        | error e => simp [Translator.new, hload] at hnew
        | ok m =>
          by_cases hcont : containsS m d
          · simp only [Translator.new, hload, hcont, if_true] at hnew
            simp only [RunOutcome.ok.injEq, Except.ok.injEq] at hnew
            subst hnew
            simpa using hcont
          · simp [Translator.new, hload, hcont] at hnew
  refine ⟨hc, ?_⟩
  obtain ⟨db, hdb⟩ := containsS_getS hc
  intro language key
  cases hl : getS t.translations language with
  | none =>
    exact ⟨(db.get_message key, db), by simp [Translator.get_message, hl, hdb]⟩
  | some b =>
    simp only [Translator.get_message, hl]
    split
    · rw [hdb]
      exact ⟨(db.get_message key, b), rfl⟩
    · exact ⟨(b.get_message key, b), rfl⟩

def c9entries : List (Except String DirEntry) :=
  [.ok (.mk "en-US" (.ok true) (.error "") (.ok []))]

def c9translator : Translator := ⟨[("en-US", ⟨["en-US"], []⟩)], "en-US"⟩

theorem claim9_witness :
    Translator.new "translations" (.ok c9entries) "en-US" = .ok (.ok c9translator) ∧
    containsS c9translator.translations c9translator.default_language = true ∧
    ∃ mb, c9translator.get_message "xx-XX" "missing" = .ok mb :=
  ⟨rfl,
   (claim9_registry_invariant "translations" "en-US" (.ok c9entries) c9translator rfl).1,
   (claim9_registry_invariant "translations" "en-US" (.ok c9entries) c9translator rfl).2
     "xx-XX" "missing"⟩
